import Mathlib

/-!
Shallow embedding of the FlowForge usage-limit / conversion-trigger engine
and the workflow-generation service of the builder-spark repository.

Conventions of the embedding:
* JavaScript numbers holding small integer counters are modelled as Int
  (all values arising here are far below 2^53, where double arithmetic is
  exact), and real-valued scores as Rat.
* JavaScript objects used as string-keyed maps are modelled as association
  lists (List (String x UsageData)), preserving insertion order, since the
  source iterates them in key order (Object.entries, Object.keys, find).
* Fallible member accesses are modelled with Option.
* Firestore writes are modelled by explicit state passing where a claim
  needs them (the conversion-opportunity store).
-/

namespace FlowForge

/-- Per-platform usage counters, from the UsageData interface of the
usage service source. -/
structure UsageData where
  used : Int
  limit : Int
  isPrimary : Bool
deriving Repr, DecidableEq

/-- A user usage map: JavaScript object keyed by platform name, modelled
as an ordered association list. -/
abbrev UserUsage := List (String × UsageData)

/-- Key lookup in a usage map, modelling a JavaScript property access
currentUsage[platform]: the first entry with the given key, if any. -/
def lookupPlatform (usage : UserUsage) (platform : String) : Option UsageData :=
  (usage.find? (fun e => e.1 = platform)).map Prod.snd

/-- The two conversion-trigger classifications from the UsageLimit
interface. -/
inductive ConversionTrigger where
  | primary_platform_limit
  | secondary_platform_limit
deriving Repr, DecidableEq

/-- Result of a usage-limit admission check, from the UsageLimit
interface. -/
structure UsageLimit where
  allowed : Bool
  remaining : Int
  isAtLimit : Bool
  willTriggerUpgrade : Bool
  conversionTrigger : Option ConversionTrigger := none
  message : Option String := none
deriving Repr, DecidableEq

/-- The fixed platform list of the UsageService class. -/
def platforms : List String := ["n8n", "zapier", "make", "power_automate"]

/-- UsageService.calculateInitialUsage: the primary platform gets
limit 3, every other platform gets limit 10, all counters start at 0. -/
def calculateInitialUsage (primaryPlatform : String) : UserUsage :=
  platforms.map (fun platform =>
    if platform = primaryPlatform then
      (platform, { used := 0, limit := 3, isPrimary := true })
    else
      (platform, { used := 0, limit := 10, isPrimary := false }))

/-- The upgrade message built in the at-limit branch of checkUsageLimit
(template-string interpolation rendered by string concatenation; the
contractions of the source text are expanded). -/
def atLimitMessage (platform : String) (lim : Int) (isPrimary : Bool) : String :=
  if isPrimary then
    "You have used all " ++ toString lim ++ " " ++ platform ++
      " workflows this month. Upgrade to Pro for unlimited access to your main platform!"
  else
    "You have used all " ++ toString lim ++ " " ++ platform ++
      " workflows this month. Try " ++ platform ++ " with unlimited Pro access!"

/-- UsageService.checkUsageLimit, the pure result value (the
fire-and-forget conversion-opportunity write is modelled separately in
checkUsageLimitSt). -/
def checkUsageLimit (_userId platform userPlan : String)
    (currentUsage : UserUsage) : UsageLimit :=
  if userPlan = "pro" ∨ userPlan = "enterprise" then
    { allowed := true, remaining := 999999, isAtLimit := false,
      willTriggerUpgrade := false }
  else
    match lookupPlatform currentUsage platform with
    | none =>
        { allowed := false, remaining := 0, isAtLimit := true,
          willTriggerUpgrade := false,
          message := some "Platform not found in user usage data" }
    | some platformUsage =>
        let remaining := platformUsage.limit - platformUsage.used
        if remaining ≤ 0 then
          { allowed := false, remaining := 0, isAtLimit := true,
            willTriggerUpgrade := platformUsage.isPrimary,
            conversionTrigger := some (if platformUsage.isPrimary then
              ConversionTrigger.primary_platform_limit
            else
              ConversionTrigger.secondary_platform_limit),
            message := some (atLimitMessage platform platformUsage.limit
              platformUsage.isPrimary) }
        else
          { allowed := true, remaining := remaining, isAtLimit := false,
            willTriggerUpgrade := decide (remaining ≤ 1) && platformUsage.isPrimary }

/-- A conversion-opportunity document as written by
trackConversionOpportunity to the conversion_opportunities collection
(the wall-clock timestamp field never flows into any returned value and
is omitted). -/
structure ConvRecord where
  userId : String
  platform : String
  trigger : ConversionTrigger
  converted : Bool
deriving Repr, DecidableEq

/-- UsageService.checkUsageLimit with its side effect made explicit: in
the at-limit branch the source fires trackConversionOpportunity, which
appends a document to the conversion_opportunities store; every other
branch leaves the store untouched. Returns the UsageLimit value together
with the updated store. -/
def checkUsageLimitSt (userId platform userPlan : String)
    (currentUsage : UserUsage) (store : List ConvRecord) :
    UsageLimit × List ConvRecord :=
  if userPlan = "pro" ∨ userPlan = "enterprise" then
    ({ allowed := true, remaining := 999999, isAtLimit := false,
       willTriggerUpgrade := false }, store)
  else
    match lookupPlatform currentUsage platform with
    | none =>
        ({ allowed := false, remaining := 0, isAtLimit := true,
           willTriggerUpgrade := false,
           message := some "Platform not found in user usage data" }, store)
    | some platformUsage =>
        let remaining := platformUsage.limit - platformUsage.used
        if remaining ≤ 0 then
          let conversionTrigger := if platformUsage.isPrimary then
              ConversionTrigger.primary_platform_limit
            else
              ConversionTrigger.secondary_platform_limit
          ({ allowed := false, remaining := 0, isAtLimit := true,
             willTriggerUpgrade := platformUsage.isPrimary,
             conversionTrigger := some conversionTrigger,
             message := some (atLimitMessage platform platformUsage.limit
               platformUsage.isPrimary) },
           store ++ [{ userId := userId, platform := platform,
                       trigger := conversionTrigger, converted := false }])
        else
          ({ allowed := true, remaining := remaining, isAtLimit := false,
             willTriggerUpgrade := decide (remaining ≤ 1) && platformUsage.isPrimary },
           store)

/-- Result of UsageService.getUsageSummary. -/
structure UsageSummary where
  totalUsed : Int
  totalLimit : Int
  platformsAtLimit : List String
  primaryPlatformUsage : Int
  secondaryPlatformsUsage : Int
deriving Repr, DecidableEq

/-- UsageService.getUsageSummary: a single left-to-right pass over
Object.entries of the usage map. A later primary entry overwrites
primaryPlatformUsage, exactly as the source assignment does. -/
def getUsageSummary (usage : UserUsage) : UsageSummary :=
  usage.foldl
    (fun acc e =>
      { totalUsed := acc.totalUsed + e.2.used,
        totalLimit := acc.totalLimit + e.2.limit,
        platformsAtLimit :=
          if e.2.limit ≤ e.2.used then acc.platformsAtLimit ++ [e.1]
          else acc.platformsAtLimit,
        primaryPlatformUsage :=
          if e.2.isPrimary then e.2.used else acc.primaryPlatformUsage,
        secondaryPlatformsUsage :=
          if e.2.isPrimary then acc.secondaryPlatformsUsage
          else acc.secondaryPlatformsUsage + e.2.used })
    { totalUsed := 0, totalLimit := 0, platformsAtLimit := [],
      primaryPlatformUsage := 0, secondaryPlatformsUsage := 0 }

/-- A JavaScript double as far as this computation can observe it: NaN,
the two infinities, or a finite value. Finite arithmetic is modelled
exactly over Rat (rounding cannot move a clamped result out of the unit
interval and no claim inspects digits); negative zero is not tracked
because no operation in this file can produce and then branch on it. -/
inductive JsNum where
  | nan
  | posInf
  | negInf
  | fin (q : ℚ)
deriving Repr, DecidableEq

/-- JavaScript addition on the values above: NaN propagates, opposite
infinities give NaN, an infinity absorbs finite addends. -/
def jsAdd : JsNum → JsNum → JsNum
  | .nan, _ => .nan
  | _, .nan => .nan
  | .posInf, .negInf => .nan
  | .negInf, .posInf => .nan
  | .posInf, _ => .posInf
  | _, .posInf => .posInf
  | .negInf, _ => .negInf
  | _, .negInf => .negInf
  | .fin a, .fin b => .fin (a + b)

/-- JavaScript multiplication on the values above: NaN propagates and
zero times an infinity is NaN. -/
def jsMul : JsNum → JsNum → JsNum
  | .nan, _ => .nan
  | _, .nan => .nan
  | .posInf, .posInf => .posInf
  | .posInf, .negInf => .negInf
  | .negInf, .posInf => .negInf
  | .negInf, .negInf => .posInf
  | .posInf, .fin b => if b = 0 then .nan else if 0 < b then .posInf else .negInf
  | .fin a, .posInf => if a = 0 then .nan else if 0 < a then .posInf else .negInf
  | .negInf, .fin b => if b = 0 then .nan else if 0 < b then .negInf else .posInf
  | .fin a, .negInf => if a = 0 then .nan else if 0 < a then .negInf else .posInf
  | .fin a, .fin b => .fin (a * b)

/-- JavaScript division on the values above: NaN propagates, infinity
over infinity is NaN, zero over zero is NaN, nonzero over zero is a
signed infinity (the dividend sign decides, negative zero untracked). -/
def jsDiv : JsNum → JsNum → JsNum
  | .nan, _ => .nan
  | _, .nan => .nan
  | .posInf, .posInf => .nan
  | .posInf, .negInf => .nan
  | .negInf, .posInf => .nan
  | .negInf, .negInf => .nan
  | .posInf, .fin b => if b < 0 then .negInf else .posInf
  | .negInf, .fin b => if b < 0 then .posInf else .negInf
  | .fin _, .posInf => .fin 0
  | .fin _, .negInf => .fin 0
  | .fin a, .fin b =>
      if b = 0 then
        if a = 0 then .nan else if 0 < a then .posInf else .negInf
      else .fin (a / b)

/-- Math.max on the values above: NaN propagates. -/
def jsMax : JsNum → JsNum → JsNum
  | .nan, _ => .nan
  | _, .nan => .nan
  | .posInf, _ => .posInf
  | _, .posInf => .posInf
  | .negInf, y => y
  | x, .negInf => x
  | .fin a, .fin b => .fin (max a b)

/-- Math.min on the values above: NaN propagates. -/
def jsMin : JsNum → JsNum → JsNum
  | .nan, _ => .nan
  | _, .nan => .nan
  | .negInf, _ => .negInf
  | _, .negInf => .negInf
  | .posInf, y => y
  | x, .posInf => x
  | .fin a, .fin b => .fin (min a b)

/-- UsageService.predictConversionProbability, with the double
arithmetic over JsNum. The key expression
Object.keys(usage).find(isPrimary) short-circuited by the or with the
literal n8n key falls back both when no primary exists (undefined) and
when the found key is the falsy empty string; the subsequent member
access usage[key].limit throws a TypeError when that key is absent,
modelled as none. The division can produce NaN (zero primary usage over
a zero limit) or an infinity, which flow through the weighted sum and
the Math.min/Math.max clamp with JavaScript semantics. -/
def predictConversionProbability (usage : UserUsage)
    (daysSinceSignup : Int) : Option JsNum :=
  let summary := getUsageSummary usage
  let primaryKey : String :=
    match usage.find? (fun e => e.2.isPrimary) with
    | some e => if e.1 = "" then "n8n" else e.1
    | none => "n8n"
  match lookupPlatform usage primaryKey with
  | none => none
  | some primaryData =>
      let primaryUsageRate : JsNum :=
        jsDiv (JsNum.fin (summary.primaryPlatformUsage : ℚ))
              (JsNum.fin (primaryData.limit : ℚ))
      let explorationScore : ℚ :=
        if 0 < summary.secondaryPlatformsUsage then 12/10 else 1
      let timeScore : ℚ := min ((daysSinceSignup : ℚ) / 14) 1
      let baseProbability : JsNum :=
        jsAdd (jsAdd (jsMul primaryUsageRate (JsNum.fin (6/10)))
                     (JsNum.fin (timeScore * (3/10))))
              (JsNum.fin ((explorationScore - 1) * (1/10)))
      some (jsMin (jsMax baseProbability (JsNum.fin 0)) (JsNum.fin 1))

/-- Result of useConversionOptimization.getOptimalUpgradeOffer. -/
structure UpgradeOffer where
  discount : Int
  urgency : String
  features : List String
deriving Repr, DecidableEq

/-- The fixed feature list of getOptimalUpgradeOffer. -/
def proFeatures : List String :=
  ["Unlimited workflows on ALL platforms",
   "Priority support and faster generation",
   "Advanced workflow templates",
   "Team collaboration features",
   "Export to multiple formats"]

/-- useConversionOptimization.getOptimalUpgradeOffer. The guard on a
missing user profile or usage summary is modelled by the Option
argument; daysSinceSignup is the floored day difference computed by the
hook; the totalUsed / totalLimit double division is modelled over Rat. -/
def getOptimalUpgradeOffer (usageSummary : Option UsageSummary)
    (daysSinceSignup : Int) : UpgradeOffer :=
  match usageSummary with
  | none => { discount := 0, urgency := "", features := [] }
  | some summary =>
      let totalUsageRate : ℚ := (summary.totalUsed : ℚ) / (summary.totalLimit : ℚ)
      if 0 < summary.platformsAtLimit.length then
        { discount := 25,
          urgency := "Limited time: 25% off to remove all limits!",
          features := proFeatures }
      else if 8/10 < totalUsageRate then
        { discount := 20,
          urgency := "High usage detected: 20% off Pro plan!",
          features := proFeatures }
      else if daysSinceSignup ≤ 7 then
        { discount := 30,
          urgency := "New user special: 30% off first month!",
          features := proFeatures }
      else
        { discount := 0, urgency := "", features := proFeatures }

/-! ## The OpenAI workflow-generation service -/

/-- The four supported platforms, from the WorkflowGenerationRequest
union type. -/
inductive Platform where
  | n8n
  | zapier
  | make
  | power_automate
deriving Repr, DecidableEq

/-- JSON values, as produced by JSON.parse on the chat-completion
content and as built literally by the fallback workflows. Numbers
occurring here are small integers, modelled as Int. -/
inductive Json where
  | null
  | bool (b : Bool)
  | num (n : Int)
  | str (s : String)
  | arr (elems : List Json)
  | obj (fields : List (String × Json))

/-- JavaScript property access w.f on a parsed JSON value: some v when w
is an object with field f, none when the field is absent or w is not an
object (access on null or undefined throws in the source, but every such
throw is caught by a try that lands in the same failure outcome). -/
def Json.getField : Json → String → Option Json
  | .obj fields, f => (fields.find? (fun e => e.1 = f)).map Prod.snd
  | _, _ => none

/-- JavaScript truthiness of a JSON value. -/
def Json.truthy : Json → Bool
  | .null => false
  | .bool b => b
  | .num n => decide (n ≠ 0)
  | .str s => decide (s ≠ "")
  | .arr _ => true
  | .obj _ => true

/-- Array.isArray. -/
def Json.isArray : Json → Bool
  | .arr _ => true
  | _ => false

/-- Whether typeof yields object for a truthy value: objects and arrays
(null is typeof object but falsy, so it never passes the combined
truthy-and-typeof tests of the source). -/
def Json.isObjectLike : Json → Bool
  | .obj _ => true
  | .arr _ => true
  | _ => false

/-- The .length property where it exists: arrays and strings. -/
def Json.jsLength : Json → Option Nat
  | .arr elems => some elems.length
  | .str s => some s.length
  | _ => none

/-- Object.keys(x).length for the power_automate branch of countNodes:
field count on objects, element count on arrays, character count on
strings, 0 on primitives. -/
def Json.keysCount : Json → Nat
  | .obj fields => fields.length
  | .arr elems => elems.length
  | .str s => s.length
  | _ => 0

/-- OpenAIService.validateWorkflow: the list of schema errors collected
for the given platform (the result is valid when this list is empty). -/
def validateWorkflow (workflow : Json) (platform : Platform) : List String :=
  match platform with
  | .n8n =>
      (if !((workflow.getField "nodes").elim false (fun n => n.truthy && n.isArray)) then
        ["n8n workflow must have nodes array"] else []) ++
      (if !((workflow.getField "connections").elim false
            (fun c => c.truthy && c.isObjectLike)) then
        ["n8n workflow must have connections object"] else []) ++
      (if (workflow.getField "nodes").elim false
            (fun n => n.truthy && n.jsLength = some 0) then
        ["n8n workflow must have at least one node"] else [])
  | .zapier =>
      (if !((workflow.getField "steps").elim false (fun s => s.truthy && s.isArray)) then
        ["Zapier workflow must have steps array"] else []) ++
      (if !((workflow.getField "title").elim false
            (fun t => t.truthy && (match t with | .str _ => true | _ => false))) then
        ["Zapier workflow must have title"] else [])
  | .make =>
      (if !((workflow.getField "flow").elim false (fun f => f.truthy && f.isArray)) then
        ["Make scenario must have flow array"] else []) ++
      (if !((workflow.getField "name").elim false
            (fun n => n.truthy && (match n with | .str _ => true | _ => false))) then
        ["Make scenario must have name"] else [])
  | .power_automate =>
      (if !((workflow.getField "definition").elim false
            (fun d => d.truthy && d.isObjectLike)) then
        ["Power Automate flow must have definition object"] else []) ++
      (if !(((workflow.getField "definition").bind
              (fun d => d.getField "triggers")).elim false
            (fun t => t.truthy && t.isObjectLike)) then
        ["Power Automate flow must have triggers"] else [])

/-- OpenAIService.countNodes: first of nodes, steps, flow that is an
array wins; then the power_automate definition.actions branch; default 1. -/
def countNodes (workflow : Json) : Nat :=
  match workflow.getField "nodes" with
  | some (.arr nodes) => nodes.length
  | _ =>
    match workflow.getField "steps" with
    | some (.arr steps) => steps.length
    | _ =>
      match workflow.getField "flow" with
      | some (.arr flow) => flow.length
      | _ =>
        match (workflow.getField "definition").bind (fun d => d.getField "actions") with
        | some actions => if actions.truthy then actions.keysCount + 1 else 1
        | none => 1

/-- The three complexity buckets. -/
inductive Complexity where
  | simple
  | medium
  | complex
deriving Repr, DecidableEq

/-- OpenAIService.calculateComplexity. -/
def calculateComplexity (workflow : Json) (input : String) : Complexity :=
  let nodeCount := countNodes workflow
  let inputLength := input.length
  if 6 < nodeCount ∨ 150 < inputLength then .complex
  else if 3 < nodeCount ∨ 75 < inputLength then .medium
  else .simple

/-- A workflow-generation request, from the WorkflowGenerationRequest
interface. -/
structure WorkflowGenerationRequest where
  input : String
  platform : Platform
  userId : String

/-- Metadata of a generation response. -/
structure WorkflowMetadata where
  platform : Platform
  nodesCount : Nat
  complexity : Complexity
  tokensUsed : Nat
  generationTime : Nat

/-- A workflow-generation response, from the
WorkflowGenerationResponse interface. -/
structure WorkflowGenerationResponse where
  success : Bool
  workflow : Json
  metadata : WorkflowMetadata
  error : Option String := none

/-- The fixed n8n fallback workflow of generateFallbackWorkflow. -/
def fallbackN8n : Json :=
  .obj [
    ("name", .str "Demo Workflow"),
    ("nodes", .arr [
      .obj [
        ("parameters", .obj [
          ("httpMethod", .str "GET"),
          ("url", .str "https://api.example.com/webhook")]),
        ("id", .str "webhook-trigger"),
        ("name", .str "Webhook Trigger"),
        ("type", .str "n8n-nodes-base.webhook"),
        ("position", .arr [.num 250, .num 300]),
        ("credentials", .obj [])],
      .obj [
        ("parameters", .obj [
          ("values", .obj [
            ("string", .arr [
              .obj [("name", .str "processed"), ("value", .str "true")]])])]),
        ("id", .str "set-data"),
        ("name", .str "Set Data"),
        ("type", .str "n8n-nodes-base.set"),
        ("position", .arr [.num 550, .num 300])],
      .obj [
        ("parameters", .obj [
          ("message", .str "Workflow completed successfully")]),
        ("id", .str "notify"),
        ("name", .str "Send Notification"),
        ("type", .str "n8n-nodes-base.emailSend"),
        ("position", .arr [.num 850, .num 300])]]),
    ("connections", .obj [
      ("Webhook Trigger", .obj [
        ("main", .arr [.arr [
          .obj [("node", .str "Set Data"), ("type", .str "main"),
                ("index", .num 0)]]])]),
      ("Set Data", .obj [
        ("main", .arr [.arr [
          .obj [("node", .str "Send Notification"), ("type", .str "main"),
                ("index", .num 0)]]])])]),
    ("active", .bool false),
    ("settings", .obj []),
    ("versionId", .str "1.0")]

/-- The fixed Zapier fallback workflow; its description embeds the
request input. -/
def fallbackZapier (input : String) : Json :=
  .obj [
    ("title", .str "Demo Workflow"),
    ("description", .str ("Automated workflow: " ++ input)),
    ("steps", .arr [
      .obj [
        ("id", .num 1),
        ("meta", .obj [("app", .str "webhook"), ("action", .str "catch_hook")]),
        ("params", .obj [("webhook_url", .str "\x7b\x7bgenerated\x7d\x7d")])],
      .obj [
        ("id", .num 2),
        ("meta", .obj [("app", .str "formatter"), ("action", .str "text")]),
        ("params", .obj [("transform", .str "title_case")])],
      .obj [
        ("id", .num 3),
        ("meta", .obj [("app", .str "email"), ("action", .str "send")]),
        ("params", .obj [("to", .str "user@example.com"),
                         ("subject", .str "Workflow Triggered")])]])]

/-- The fixed Make fallback scenario. -/
def fallbackMake : Json :=
  .obj [
    ("name", .str "Demo Scenario"),
    ("team_id", .null),
    ("flow", .arr [
      .obj [
        ("id", .num 1), ("module", .str "webhook"), ("version", .num 1),
        ("parameters", .obj [("url", .str "/webhook")]),
        ("filter", .obj []), ("mapper", .obj [])],
      .obj [
        ("id", .num 2), ("module", .str "json"), ("version", .num 1),
        ("parameters", .obj [("action", .str "parse")]),
        ("filter", .obj []), ("mapper", .obj [])],
      .obj [
        ("id", .num 3), ("module", .str "email"), ("version", .num 1),
        ("parameters", .obj [("to", .str "user@example.com")]),
        ("filter", .obj []), ("mapper", .obj [])]]),
    ("metadata", .obj [
      ("designer", .obj [("x", .num 0), ("y", .num 0)])])]

/-- The fixed Power Automate fallback flow. -/
def fallbackPowerAutomate : Json :=
  .obj [
    ("definition", .obj [
      ("$schema", .str "https://schema.management.azure.com/providers/Microsoft.Logic/schemas/2016-06-01/workflowdefinition.json#"),
      ("contentVersion", .str "1.0.0.0"),
      ("parameters", .obj []),
      ("triggers", .obj [
        ("http_trigger", .obj [
          ("type", .str "Request"),
          ("inputs", .obj [("schema", .obj [])])])]),
      ("actions", .obj [
        ("compose_data", .obj [
          ("type", .str "Compose"),
          ("inputs", .str "@triggerBody()")]),
        ("send_email", .obj [
          ("type", .str "Office365Outlook.SendEmail"),
          ("inputs", .obj [
            ("to", .str "user@example.com"),
            ("subject", .str "Workflow Triggered"),
            ("body", .str "Your workflow has been executed successfully.")])])])])]

/-- The fallbackWorkflows[request.platform] selection of
generateFallbackWorkflow. -/
def fallbackWorkflowFor (request : WorkflowGenerationRequest) : Json :=
  match request.platform with
  | .n8n => fallbackN8n
  | .zapier => fallbackZapier request.input
  | .make => fallbackMake
  | .power_automate => fallbackPowerAutomate

/-- OpenAIService.generateFallbackWorkflow: always a success response
with the fixed demo workflow of the requested platform and zero tokens. -/
def generateFallbackWorkflow (request : WorkflowGenerationRequest)
    (generationTime : Nat) : WorkflowGenerationResponse :=
  let workflow := fallbackWorkflowFor request
  { success := true,
    workflow := workflow,
    metadata := {
      platform := request.platform,
      nodesCount := countNodes workflow,
      complexity := calculateComplexity workflow request.input,
      tokensUsed := 0,
      generationTime := generationTime } }

/-- The message content delivered by the chat-completion call, after the
JSON.parse step: empty models a null or empty content field (the source
then parses the literal empty-object text), invalid models content
JSON.parse rejects, json models content parsing to the given value. -/
inductive ApiContent where
  | empty
  | invalid
  | json (j : Json)

/-- Outcome of the external chat-completion call: the call may reject
(apiError) or resolve with some content and an optional usage total. -/
inductive ApiOutcome where
  | apiError
  | responded (content : ApiContent) (totalTokens : Option Nat)

/-- The tail of the try block of generateWorkflow once a parsed workflow
value exists: schema validation, then either the success response or
(via the thrown validation error and the catch) the fallback. -/
def finishGeneration (request : WorkflowGenerationRequest)
    (workflowJSON : Json) (totalTokens : Option Nat)
    (generationTime : Nat) : WorkflowGenerationResponse :=
  if (validateWorkflow workflowJSON request.platform).isEmpty then
    { success := true,
      workflow := workflowJSON,
      metadata := {
        platform := request.platform,
        nodesCount := countNodes workflowJSON,
        complexity := calculateComplexity workflowJSON request.input,
        tokensUsed := totalTokens.getD 0,
        generationTime := generationTime } }
  else
    generateFallbackWorkflow request generationTime

/-- OpenAIService.generateWorkflow. Every throw inside the try block
(input too short, input too long, rejected API call, JSON.parse failure,
schema validation failure) is caught and answered by
generateFallbackWorkflow. The empty-input check of the source is
subsumed by the length check, since the empty string has length 0. -/
def generateWorkflow (request : WorkflowGenerationRequest)
    (api : ApiOutcome) (generationTime : Nat) : WorkflowGenerationResponse :=
  if request.input.length < 10 then
    generateFallbackWorkflow request generationTime
  else if 2000 < request.input.length then
    generateFallbackWorkflow request generationTime
  else
    match api with
    | .apiError => generateFallbackWorkflow request generationTime
    | .responded content totalTokens =>
        match content with
        | .invalid => generateFallbackWorkflow request generationTime
        | .empty => finishGeneration request (Json.obj []) totalTokens generationTime
        | .json j => finishGeneration request j totalTokens generationTime

/-- The failure paths of generateWorkflow enumerated by the spec: input
too short, input too long, API error, parse failure, or schema
validation failure of the parsed workflow. -/
def hitsFailurePath (request : WorkflowGenerationRequest)
    (api : ApiOutcome) : Prop :=
  request.input.length < 10 ∨ 2000 < request.input.length ∨
  api = ApiOutcome.apiError ∨
  (∃ tok, api = ApiOutcome.responded ApiContent.invalid tok) ∨
  (∃ tok, api = ApiOutcome.responded ApiContent.empty tok ∧
    ¬ (validateWorkflow (Json.obj []) request.platform).isEmpty = true) ∨
  (∃ j tok, api = ApiOutcome.responded (ApiContent.json j) tok ∧
    ¬ (validateWorkflow j request.platform).isEmpty = true)

/-! ## The Express route handler for POST generate-workflow -/

/-- A request body for the generation endpoint, with the three fields
the zod schema inspects, each present as a string. -/
structure RequestBody where
  input : String
  platform : String
  userId : String

/-- The zod platform enum: the four supported platform names. -/
def parsePlatform (s : String) : Option Platform :=
  if s = "n8n" then some .n8n
  else if s = "zapier" then some .zapier
  else if s = "make" then some .make
  else if s = "power_automate" then some .power_automate
  else none

/-- The issue list produced by WorkflowGenerationSchema.safeParse on a
body whose three fields are strings: zod collects the issues of every
failing field. -/
def schemaIssues (b : RequestBody) : List String :=
  (if b.input.length < 10 then
    ["Workflow description must be at least 10 characters"] else []) ++
  (if 2000 < b.input.length then
    ["Workflow description too long"] else []) ++
  (if parsePlatform b.platform = none then
    ["Platform must be one of: n8n, zapier, make, power_automate"] else []) ++
  (if b.userId.length < 1 then
    ["User ID is required"] else [])

/-- WorkflowGenerationSchema.safeParse: the parsed data on success, the
issue list on failure. -/
def safeParseBody (b : RequestBody) : Except (List String) WorkflowGenerationRequest :=
  match parsePlatform b.platform with
  | some p =>
      if (schemaIssues b).isEmpty then
        Except.ok { input := b.input, platform := p, userId := b.userId }
      else
        Except.error (schemaIssues b)
  | none => Except.error (schemaIssues b)

/-- How far handleWorkflowGeneration gets before the generation service
runs: either it responds directly with the given HTTP status and success
flag (validation failure or rate limiting, no service call), or it
invokes openaiService.generateWorkflow with the given request. -/
inductive HandlerOutcome where
  | respond (status : Nat) (success : Bool) (issues : List String)
  | serviceCalled (request : WorkflowGenerationRequest)

/-- handleWorkflowGeneration up to the service invocation: validate the
body, then the rate-limit guard (req.rateLimit is set by no middleware
in createServer, hence none in the deployed server), then forward the
parsed data with the input trimmed. -/
def handleWorkflowGeneration (b : RequestBody)
    (rateLimitRemaining : Option Nat) : HandlerOutcome :=
  match safeParseBody b with
  | .error issues => .respond 400 false issues
  | .ok data =>
      match rateLimitRemaining with
      | some 0 => .respond 429 false []
      | _ => .serviceCalled { data with input := data.input.trim }

/-! ## Theorems for the claims -/

/-- C1: for a free-plan user whose usage map contains the requested
platform, checkUsageLimit allows generation iff the used count is
strictly below the limit; at or above the limit it denies with
remaining 0 and isAtLimit true; when allowed, remaining is limit minus
used. -/
theorem C1_free_plan_admission (userId platform : String) (usage : UserUsage)
    (pu : UsageData) (h : lookupPlatform usage platform = some pu) :
    ((checkUsageLimit userId platform "free" usage).allowed = true ↔ pu.used < pu.limit) ∧
    (pu.limit ≤ pu.used →
      (checkUsageLimit userId platform "free" usage).allowed = false ∧
      (checkUsageLimit userId platform "free" usage).remaining = 0 ∧
      (checkUsageLimit userId platform "free" usage).isAtLimit = true) ∧
    ((checkUsageLimit userId platform "free" usage).allowed = true →
      (checkUsageLimit userId platform "free" usage).remaining = pu.limit - pu.used) := by
  unfold checkUsageLimit
  rw [if_neg (by decide), h]
  dsimp only
  split_ifs with hle <;>
    refine ⟨?_, fun hc => ?_, fun hab => ?_⟩ <;>
      simp_all

/-- Witness for C1 at a concrete free-plan usage map. -/
theorem C1_free_plan_admission_witness :
    lookupPlatform [("n8n", { used := 2, limit := 3, isPrimary := true })] "n8n" =
      some { used := 2, limit := 3, isPrimary := true } ∧
    (checkUsageLimit "u" "n8n" "free"
      [("n8n", { used := 2, limit := 3, isPrimary := true })]).allowed = true :=
  ⟨by decide,
   (C1_free_plan_admission "u" "n8n"
      [("n8n", { used := 2, limit := 3, isPrimary := true })]
      { used := 2, limit := 3, isPrimary := true } (by decide)).1.mpr (by decide)⟩

/-- C2: for any of the four supported platforms chosen as primary,
calculateInitialUsage covers exactly the four platforms, gives the
primary limit 3 with isPrimary, every other platform limit 10 without
isPrimary, all counters 0, and the primary quota is strictly below
every secondary quota. -/
theorem C2_initial_usage (p : String) (hp : p ∈ platforms) :
    ((calculateInitialUsage p).map Prod.fst = platforms) ∧
    lookupPlatform (calculateInitialUsage p) p =
      some { used := 0, limit := 3, isPrimary := true } ∧
    (∀ q ∈ platforms, q ≠ p →
      lookupPlatform (calculateInitialUsage p) q =
        some { used := 0, limit := 10, isPrimary := false }) ∧
    (∀ q ∈ platforms, q ≠ p → ∀ dp dq,
      lookupPlatform (calculateInitialUsage p) p = some dp →
      lookupPlatform (calculateInitialUsage p) q = some dq →
      dp.limit < dq.limit) := by
  fin_cases hp <;>
  refine ⟨by decide, by decide, ?_, ?_⟩ <;>
  · intro q hq hne
    fin_cases hq <;> first
      | exact absurd rfl hne
      | decide
      | (intro dp dq h1 h2
         injection h1 with e1
         injection h2 with e2
         rw [← e1, ← e2]
         decide)

/-- Witness for C2 with zapier as the primary platform. -/
theorem C2_initial_usage_witness :
    "zapier" ∈ platforms ∧
    lookupPlatform (calculateInitialUsage "zapier") "zapier" =
      some { used := 0, limit := 3, isPrimary := true } ∧
    lookupPlatform (calculateInitialUsage "zapier") "n8n" =
      some { used := 0, limit := 10, isPrimary := false } :=
  ⟨by decide,
   (C2_initial_usage "zapier" (by decide)).2.1,
   (C2_initial_usage "zapier" (by decide)).2.2.1 "n8n" (by decide) (by decide)⟩

/-- C3: pro and enterprise users always get the unlimited response,
whatever the platform and the usage map. -/
theorem C3_paid_plans_unlimited (userId platform plan : String) (usage : UserUsage)
    (h : plan = "pro" ∨ plan = "enterprise") :
    checkUsageLimit userId platform plan usage =
      { allowed := true, remaining := 999999, isAtLimit := false,
        willTriggerUpgrade := false } := by
  unfold checkUsageLimit
  rw [if_pos h]

/-- Witness for C3 on a pro user and a platform absent from an empty
usage map. -/
theorem C3_paid_plans_unlimited_witness :
    checkUsageLimit "u" "missing" "pro" [] =
      { allowed := true, remaining := 999999, isAtLimit := false,
        willTriggerUpgrade := false } :=
  C3_paid_plans_unlimited "u" "missing" "pro" [] (Or.inl rfl)

/-- C4: a conversionTrigger is present exactly on the blocked-at-quota
path (free plan, platform present, used at or above limit), its value
is primary_platform_limit iff the platform is primary, and no trigger
accompanies an allowed result or the platform-not-found result. -/
theorem C4_conversion_trigger (userId platform plan : String) (usage : UserUsage)
    (hplan : plan = "free" ∨ plan = "pro" ∨ plan = "enterprise") :
    ((checkUsageLimit userId platform plan usage).conversionTrigger ≠ none ↔
      (plan = "free" ∧ ∃ pu, lookupPlatform usage platform = some pu ∧
        pu.limit ≤ pu.used)) ∧
    (∀ pu, plan = "free" → lookupPlatform usage platform = some pu →
      pu.limit ≤ pu.used →
      (checkUsageLimit userId platform plan usage).conversionTrigger =
        some (if pu.isPrimary then ConversionTrigger.primary_platform_limit
              else ConversionTrigger.secondary_platform_limit)) ∧
    ((checkUsageLimit userId platform plan usage).allowed = true →
      (checkUsageLimit userId platform plan usage).conversionTrigger = none) ∧
    (lookupPlatform usage platform = none →
      (checkUsageLimit userId platform plan usage).conversionTrigger = none) := by
  rcases hplan with h | h | h
  · subst h
    unfold checkUsageLimit
    rw [if_neg (by decide)]
    cases hl : lookupPlatform usage platform with
    | none => simp [hl]
    | some pu =>
        dsimp only
        split_ifs with hle <;> refine ⟨?_, ?_, ?_, ?_⟩ <;> simp_all
  · subst h
    unfold checkUsageLimit
    rw [if_pos (by decide)]
    refine ⟨?_, ?_, ?_, ?_⟩ <;> simp
  · subst h
    unfold checkUsageLimit
    rw [if_pos (by decide)]
    refine ⟨?_, ?_, ?_, ?_⟩ <;> simp

/-- Witness for C4 on a blocked secondary platform of a free user. -/
theorem C4_conversion_trigger_witness :
    (checkUsageLimit "u" "make" "free"
      [("make", { used := 10, limit := 10, isPrimary := false })]).conversionTrigger =
      some (if ({ used := 10, limit := 10, isPrimary := false } : UsageData).isPrimary
            then ConversionTrigger.primary_platform_limit
            else ConversionTrigger.secondary_platform_limit) :=
  (C4_conversion_trigger "u" "make" "free"
    [("make", { used := 10, limit := 10, isPrimary := false })] (Or.inl rfl)).2.1
    { used := 10, limit := 10, isPrimary := false } rfl (by decide) (by decide)

/-- C5: generateWorkflow never returns success false: every failure path
(short input, long input, API error, parse failure, schema validation
failure) lands in the fixed fallback demo workflow of the requested
platform, with success true and zero tokens; hence the route handler
branch for an unsuccessful result is unreachable. -/
theorem C5_generate_never_fails (request : WorkflowGenerationRequest)
    (api : ApiOutcome) (t : Nat) :
    (generateWorkflow request api t).success = true ∧
    (hitsFailurePath request api →
      generateWorkflow request api t = generateFallbackWorkflow request t ∧
      (generateWorkflow request api t).metadata.tokensUsed = 0) := by
  have hsucc : (generateWorkflow request api t).success = true := by
    unfold generateWorkflow
    split_ifs
    · rfl
    · rfl
    · cases api with
      | apiError => rfl
      | responded content tok =>
        cases content with
        | invalid => rfl
        | empty => dsimp only; unfold finishGeneration; split_ifs <;> rfl
        | json j => dsimp only; unfold finishGeneration; split_ifs <;> rfl
  have hfb : hitsFailurePath request api →
      generateWorkflow request api t = generateFallbackWorkflow request t := by
    intro hf
    unfold generateWorkflow
    split_ifs with h1 h2
    · rfl
    · rfl
    · unfold hitsFailurePath at hf
      cases api with
      | apiError => rfl
      | responded content tok =>
        cases content with
        | invalid => rfl
        | empty =>
          dsimp only
          unfold finishGeneration
          split_ifs with hv
          · exfalso
            rcases hf with hf | hf | hf | ⟨t1, hf⟩ | ⟨t1, hf, hval⟩ | ⟨j1, t1, hf, hval⟩
            · exact h1 hf
            · exact h2 hf
            · exact ApiOutcome.noConfusion hf
            · injection hf with hc ht
              exact ApiContent.noConfusion hc
            · exact hval hv
            · injection hf with hc ht
              exact ApiContent.noConfusion hc
          · rfl
        | json j =>
          dsimp only
          unfold finishGeneration
          split_ifs with hv
          · exfalso
            rcases hf with hf | hf | hf | ⟨t1, hf⟩ | ⟨t1, hf, hval⟩ | ⟨j1, t1, hf, hval⟩
            · exact h1 hf
            · exact h2 hf
            · exact ApiOutcome.noConfusion hf
            · injection hf with hc ht
              exact ApiContent.noConfusion hc
            · injection hf with hc ht
              exact ApiContent.noConfusion hc
            · injection hf with hc ht
              injection hc with hj
              subst hj
              exact hval hv
          · rfl
  exact ⟨hsucc, fun hf => ⟨hfb hf, by rw [hfb hf]; rfl⟩⟩

/-- Witness for C5 on a too-short input with a rejected API call. -/
theorem C5_generate_never_fails_witness :
    (generateWorkflow { input := "short", platform := Platform.n8n, userId := "u" }
        ApiOutcome.apiError 5).success = true ∧
    generateWorkflow { input := "short", platform := Platform.n8n, userId := "u" }
        ApiOutcome.apiError 5 =
      generateFallbackWorkflow
        { input := "short", platform := Platform.n8n, userId := "u" } 5 ∧
    (generateWorkflow { input := "short", platform := Platform.n8n, userId := "u" }
        ApiOutcome.apiError 5).metadata.tokensUsed = 0 := by
  have h : hitsFailurePath
      { input := "short", platform := Platform.n8n, userId := "u" }
      ApiOutcome.apiError := by
    unfold hitsFailurePath
    exact Or.inl (by decide)
  exact ⟨(C5_generate_never_fails _ _ 5).1,
    ((C5_generate_never_fails _ _ 5).2 h).1,
    ((C5_generate_never_fails _ _ 5).2 h).2⟩

/-- Empty strings are exactly the length-zero strings (used for the
zod min-length check on userId). -/
theorem string_length_eq_zero {s : String} : s.length = 0 ↔ s = "" := by
  cases s with
  | mk data => simp [String.ext_iff, List.length_eq_zero]

/-- C6: a body failing any of the four zod constraints is answered 400
with success false without reaching the generation service, and a body
satisfying them all is forwarded unchanged except for trimming the
input. -/
theorem C6_route_validation (b : RequestBody) :
    ((b.input.length < 10 ∨ 2000 < b.input.length ∨
        parsePlatform b.platform = none ∨ b.userId = "") →
      ∀ rl, ∃ issues, handleWorkflowGeneration b rl =
        HandlerOutcome.respond 400 false issues) ∧
    (∀ p, parsePlatform b.platform = some p →
      10 ≤ b.input.length → b.input.length ≤ 2000 → b.userId ≠ "" →
      handleWorkflowGeneration b none =
        HandlerOutcome.serviceCalled
          { input := b.input.trim, platform := p, userId := b.userId }) := by
  constructor
  · intro hbad rl
    refine ⟨schemaIssues b, ?_⟩
    have hne : ¬ (schemaIssues b).isEmpty = true := by
      rcases hbad with h | h | h | h
      · simp [schemaIssues, h]
      · simp [schemaIssues, h]
      · simp [schemaIssues, h]
      · have : b.userId.length < 1 := by
          rw [string_length_eq_zero.mpr h]
          omega
        simp [schemaIssues, this]
    unfold handleWorkflowGeneration safeParseBody
    cases hp : parsePlatform b.platform with
    | none => rfl
    | some p =>
        dsimp only
        rw [if_neg hne]
  · intro p hp h10 h2000 hnz
    have hissues : schemaIssues b = [] := by
      unfold schemaIssues
      rw [if_neg (by omega), if_neg (by omega), if_neg (by simp [hp]),
        if_neg (fun hc : b.userId.length < 1 =>
          hnz (string_length_eq_zero.mp (by omega)))]
      rfl
    unfold handleWorkflowGeneration safeParseBody
    rw [hp]
    dsimp only
    rw [if_pos (by rw [hissues]; rfl)]

/-- Witness for C6: a short input is rejected with 400, a valid body is
forwarded with the input trimmed. -/
theorem C6_route_validation_witness :
    (∃ issues, handleWorkflowGeneration
        { input := "short", platform := "n8n", userId := "u1" } none =
      HandlerOutcome.respond 400 false issues) ∧
    handleWorkflowGeneration
        { input := "  automate my emails  ", platform := "zapier", userId := "u2" } none =
      HandlerOutcome.serviceCalled
        { input := "  automate my emails  ".trim, platform := Platform.zapier,
          userId := "u2" } := by
  constructor
  · exact (C6_route_validation
      { input := "short", platform := "n8n", userId := "u1" }).1
      (Or.inl (by decide)) none
  · exact (C6_route_validation
      { input := "  automate my emails  ", platform := "zapier", userId := "u2" }).2
      Platform.zapier (by decide) (by decide) (by decide) (by decide)

/-- C7: the upgrade-offer discount precedence is at-limit 25, then
high total usage 20, then new-user 30, else 0; in particular a
platform already at its limit wins over the new-user discount. -/
theorem C7_discount_precedence (s : UsageSummary) (d : Int) :
    ((s.platformsAtLimit ≠ [] →
      (getOptimalUpgradeOffer (some s) d).discount = 25) ∧
    (s.platformsAtLimit = [] →
      8/10 < (s.totalUsed : ℚ) / (s.totalLimit : ℚ) →
      (getOptimalUpgradeOffer (some s) d).discount = 20) ∧
    (s.platformsAtLimit = [] →
      (s.totalUsed : ℚ) / (s.totalLimit : ℚ) ≤ 8/10 → d ≤ 7 →
      (getOptimalUpgradeOffer (some s) d).discount = 30) ∧
    (s.platformsAtLimit = [] →
      (s.totalUsed : ℚ) / (s.totalLimit : ℚ) ≤ 8/10 → 7 < d →
      (getOptimalUpgradeOffer (some s) d).discount = 0)) := by
  unfold getOptimalUpgradeOffer
  dsimp only
  split_ifs with hA hB hC <;>
    refine ⟨fun h1 => ?_, fun h1 h2 => ?_, fun h1 h2 h3 => ?_, fun h1 h2 h3 => ?_⟩ <;>
      first
        | rfl
        | (simp_all [List.length_pos]; done)
        | (exfalso; omega)
        | (exfalso; linarith)

/-- Witness for C7: a seven-day-old account with a platform at its
limit gets the 25 percent offer, not the new-user 30. -/
theorem C7_discount_precedence_witness :
    (getOptimalUpgradeOffer
      (some { totalUsed := 3, totalLimit := 33, platformsAtLimit := ["n8n"],
              primaryPlatformUsage := 3, secondaryPlatformsUsage := 0 }) 2).discount = 25 :=
  (C7_discount_precedence
    { totalUsed := 3, totalLimit := 33, platformsAtLimit := ["n8n"],
      primaryPlatformUsage := 3, secondaryPlatformsUsage := 0 } 2).1 (by decide)

/-- C8: the admission-check result is a function of the arguments
alone: the value returned by the store-passing checkUsageLimitSt does
not depend on the conversion-opportunity store and coincides with the
pure checkUsageLimit. -/
theorem C8_check_result_store_independent (userId platform plan : String)
    (usage : UserUsage) (s1 s2 : List ConvRecord) :
    (checkUsageLimitSt userId platform plan usage s1).1 =
      (checkUsageLimitSt userId platform plan usage s2).1 ∧
    (checkUsageLimitSt userId platform plan usage s1).1 =
      checkUsageLimit userId platform plan usage := by
  have key : ∀ s, (checkUsageLimitSt userId platform plan usage s).1 =
      checkUsageLimit userId platform plan usage := by
    intro s
    unfold checkUsageLimitSt checkUsageLimit
    split_ifs with h
    · rfl
    · cases hl : lookupPlatform usage platform with
      | none => rfl
      | some pu =>
          dsimp only
          split_ifs with hle <;> rfl
  exact ⟨(key s1).trans (key s2).symm, key s1⟩

/-- C9: every checkUsageLimit result satisfies allowed iff not
isAtLimit, a denied result has remaining 0, and remaining is never
negative. -/
theorem C9_result_invariant (userId platform plan : String) (usage : UserUsage) :
    (checkUsageLimit userId platform plan usage).allowed =
      !(checkUsageLimit userId platform plan usage).isAtLimit ∧
    ((checkUsageLimit userId platform plan usage).allowed = false →
      (checkUsageLimit userId platform plan usage).remaining = 0) ∧
    0 ≤ (checkUsageLimit userId platform plan usage).remaining := by
  unfold checkUsageLimit
  split_ifs with h
  · exact ⟨rfl, fun hc => absurd hc (by simp), by decide⟩
  · cases hl : lookupPlatform usage platform with
    | none => exact ⟨rfl, fun _ => rfl, le_refl 0⟩
    | some pu =>
        dsimp only
        split_ifs with hle hpr
        · exact ⟨rfl, fun _ => rfl, le_refl 0⟩
        · exact ⟨rfl, fun _ => rfl, le_refl 0⟩
        · exact ⟨rfl, fun hc => absurd hc (by simp), by simp; omega⟩

/-- Witness for C9 on the platform-not-found denial. -/
theorem C9_result_invariant_witness :
    (checkUsageLimit "u" "n8n" "free" []).allowed = false ∧
    (checkUsageLimit "u" "n8n" "free" []).remaining = 0 :=
  ⟨by decide, (C9_result_invariant "u" "n8n" "free" []).2.1 (by decide)⟩

/-- In a usage map with pairwise-distinct keys (every JavaScript object
has them), the key of an entry looks up exactly that entry. -/
theorem lookup_first_of_nodup_keys : ∀ (usage : UserUsage) (e0 : String × UsageData),
    (usage.map Prod.fst).Nodup → e0 ∈ usage →
    lookupPlatform usage e0.1 = some e0.2 := by
  intro usage
  induction usage with
  | nil => intro e0 _ he; cases he
  | cons x xs ih =>
      intro e0 hnd he
      rw [List.map_cons, List.nodup_cons] at hnd
      rcases List.mem_cons.mp he with he | he
      · subst he
        unfold lookupPlatform
        rw [List.find?_cons_of_pos _ (by simp)]
        rfl
      · have hne : ¬ (x.1 = e0.1) := by
          intro hkey
          exact hnd.1 (hkey ▸ List.mem_map_of_mem Prod.fst he)
        unfold lookupPlatform
        rw [List.find?_cons_of_neg _ (by simpa using hne)]
        exact ih e0 hnd.2 he

/-- Counterexample to C10 as stated: this map contains a platform with
isPrimary and a positive limit (the second entry) and the account age is
non-negative, yet the code divides zero primary usage by the zero limit
of the first primary entry, so it returns NaN, not a number in the unit
interval. -/
theorem C10_probability_counterexample :
    (∃ e ∈ ([("a", { used := 0, limit := 0, isPrimary := true }),
             ("b", { used := 0, limit := 5, isPrimary := true })] : UserUsage),
        e.2.isPrimary = true ∧ 0 < e.2.limit) ∧
    (0 : Int) ≤ 7 ∧
    predictConversionProbability
      [("a", { used := 0, limit := 0, isPrimary := true }),
       ("b", { used := 0, limit := 5, isPrimary := true })] 7 = some JsNum.nan ∧
    (∀ q : ℚ, some JsNum.nan ≠ some (JsNum.fin q)) :=
  ⟨by decide, by decide, by decide,
   fun _ h => JsNum.noConfusion (Option.some.inj h)⟩

/-- C10 amended: over usage maps with pairwise-distinct keys, when the
first primary entry (the one the code indexes) has a nonempty platform
name and a strictly positive limit, and the account age is
non-negative, the conversion probability is a finite value clamped into
the unit interval, whatever the counters. -/
theorem C10_probability_in_unit_interval (usage : UserUsage) (d : Int)
    (e0 : String × UsageData)
    (hnd : (usage.map Prod.fst).Nodup)
    (hfind : usage.find? (fun e => e.2.isPrimary) = some e0)
    (hkey : e0.1 ≠ "")
    (hlim : 0 < e0.2.limit)
    (hd : 0 ≤ d) :
    ∃ q : ℚ, predictConversionProbability usage d = some (JsNum.fin q) ∧
      0 ≤ q ∧ q ≤ 1 := by
  have he0 : e0 ∈ usage := List.mem_of_find?_eq_some hfind
  have hlk : lookupPlatform usage e0.1 = some e0.2 :=
    lookup_first_of_nodup_keys usage e0 hnd he0
  have hz : ((e0.2.limit : ℚ)) ≠ 0 := by
    rw [Int.cast_ne_zero]
    omega
  unfold predictConversionProbability
  rw [hfind]
  dsimp only
  rw [if_neg hkey, hlk]
  dsimp only
  dsimp only [jsDiv]
  rw [if_neg hz]
  dsimp only [jsMul, jsAdd, jsMax, jsMin]
  refine ⟨_, rfl, ?_, ?_⟩
  · exact le_min (le_max_right _ _) zero_le_one
  · exact min_le_right _ _

/-- Witness for the amended C10 on a fresh initial usage map. -/
theorem C10_probability_in_unit_interval_witness :
    ∃ q : ℚ, predictConversionProbability (calculateInitialUsage "n8n") 7 =
      some (JsNum.fin q) ∧ 0 ≤ q ∧ q ≤ 1 :=
  C10_probability_in_unit_interval (calculateInitialUsage "n8n") 7
    ("n8n", { used := 0, limit := 3, isPrimary := true })
    (by decide) (by decide) (by decide) (by decide) (by decide)

end FlowForge
